import Mathlib

/-!
Shallow embedding of the price-decision engine of
`pricewise-m5-dynamic-pricing` (`src/app.py`).

The engine `choose_price` turns (item, context, optional min-margin string,
explore flag) into either an early-exit outcome or a decision: one scored
candidate per grid price, with a margin guardrail marking candidates whose
price is below the margin as blocked (large negative sentinel `-1e9`), and
`np.argmax` selecting the best score (first occurrence of the maximum).

The opaque collaborators loaded from the model artifact (the fitted demand
model behind `expected_qty`, the one-hot context encoder behind `sigma`, the
price-grid store, and Python's `float` parser) are abstracted as the fields
of `Env`; prices and scores are exact rationals, so the development captures
the exact-arithmetic behaviour of the decision procedure.  The real-valued
demand wrapper `expected_qty` (src/app.py lines 48-57) is embedded
separately over `ℝ`, parameterised by the opaque regression `model_pipe`.
-/

namespace PriceWise

/-- Feature row built by `expected_qty` (src/app.py lines 49-55). -/
structure FeatureRow where
  log_price : ℝ
  weekday : String
  month : ℤ
  is_event : ℤ
  item_id : String

/-- Demand wrapper `expected_qty` (src/app.py lines 48-57): build the feature
row with the log of the trial price, get the opaque model's prediction `mu`
of `log(1+qty)`, and invert the transform with a floor at zero. -/
noncomputable def expected_qty (model_pipe : FeatureRow → ℝ) (item_id weekday : String)
    (month is_event : ℤ) (trial_price : ℝ) : ℝ :=
  max 0 (Real.exp (model_pipe ⟨Real.log trial_price, weekday, month, is_event, item_id⟩) - 1)

/-- One row of the candidate table (src/app.py lines 90 and 96). -/
structure Candidate where
  price : ℚ
  exp_qty : ℚ
  exp_rev : ℚ
  ucb : ℚ
deriving DecidableEq

/-- Structured result of a successful decision: the candidate rows and the
score list in original grid order (src/app.py lines 85-97), the chosen index
and price (lines 99-100), and the `penalized` flag recording whether any
candidate was blocked by the guardrail (lines 86, 89, 127). -/
structure Decision where
  rows : List Candidate
  scores : List ℚ
  chosen_index : ℕ
  chosen_price : ℚ
  guardrail_applied : Bool
deriving DecidableEq

/-- The four distinguishable outcomes of `choose_price`: the three early
exits of src/app.py lines 63-64, 66-68 and 74-78, and a decision. -/
inductive Outcome where
  | noItem : Outcome
  | noUsableGrid : String → Outcome
  | invalidMargin : Outcome
  | decision : Decision → Outcome
deriving DecidableEq

/-- The read-only artifacts and opaque collaborators of the engine:
`price_grid` (src/app.py line 39), the demand predictor `expected_qty` as a
function of item, context and price (lines 48-57, its value abstracted since
the fitted model is opaque), the context-dispersion value `sigma` of lines
81-82, and Python's `float` string parser (line 76, `none` = raise). -/
structure Env where
  price_grid : String → Option (List ℚ)
  qty : String → String → ℤ → ℤ → ℚ → ℚ
  sigma : String → ℤ → ℤ → ℚ
  parseFloat : String → Option ℚ

/-- Python `str.strip` as used on src/app.py line 73: remove leading and
trailing whitespace from the string's character list. -/
def pyStrip (s : String) : String :=
  ⟨((s.data.dropWhile Char.isWhitespace).reverse.dropWhile Char.isWhitespace).reverse⟩

/-- Guardrail test of src/app.py line 88: a candidate is blocked when a
margin is set and `price < margin` (strict). -/
def blocked (mm : Option ℚ) (p : ℚ) : Bool :=
  match mm with
  | some m => decide (p < m)
  | none => false

/-- One iteration of the scoring loop (src/app.py lines 87-97): a blocked
candidate gets qty 0 and the `-1e9` sentinel for revenue and score, otherwise
revenue is `price * qty` and the score is `revenue + alpha * sigma`. -/
def candidateFor (q : ℚ → ℚ) (alpha sigma : ℚ) (mm : Option ℚ) (p : ℚ) : Candidate :=
  if blocked mm p then ⟨p, 0, -1000000000, -1000000000⟩
  else ⟨p, q p, p * q p, p * q p + alpha * sigma⟩

/-- Semantics of `np.argmax` on a list (src/app.py line 99): the index of the
first occurrence of the maximum (on the empty list the source would raise;
the engine only calls it on grids of length at least 2). -/
def argmax : List ℚ → ℕ
  | [] => 0
  | _ :: [] => 0
  | x :: y :: ys =>
    if x < (y :: ys).getD (argmax (y :: ys)) 0 then argmax (y :: ys) + 1 else 0

/-- Margin parsing of src/app.py lines 70-78: `None` or a blank string means
no guardrail; otherwise the stripped string must parse as a float, and a
parse failure is the `min_margin must be numeric` validation failure. -/
def parseMargin (parse : String → Option ℚ) (min_margin : Option String) :
    Except Unit (Option ℚ) :=
  match min_margin with
  | none => Except.ok none
  | some s =>
    if pyStrip s = "" then Except.ok none
    else
      match parse (pyStrip s) with
      | some v => Except.ok (some v)
      | none => Except.error ()

/-- Scoring and selection (src/app.py lines 80-113), reached only when every
precondition passes: `alpha` is `0.8` when exploring else `0`, each grid
price is scored in original grid order, and `np.argmax` picks the winner. -/
def decisionCore (q : ℚ → ℚ) (sigma : ℚ) (mm : Option ℚ) (explore : Bool)
    (grid : List ℚ) : Decision :=
  let alpha : ℚ := if explore then 4 / 5 else 0
  let rows := grid.map (candidateFor q alpha sigma mm)
  let scores := rows.map (fun r => r.ucb)
  let best_idx := argmax scores
  ⟨rows, scores, best_idx, grid.getD best_idx 0, grid.any (fun p => blocked mm p)⟩

/-- The decision engine `choose_price` (src/app.py lines 62-144): empty item,
missing/short grid and unparseable margin are distinct early exits; otherwise
the request is scored by `decisionCore`. -/
def choose_price (env : Env) (item_id weekday : String) (month is_event : ℤ)
    (min_margin : Option String) (explore : Bool) : Outcome :=
  if item_id = "" then Outcome.noItem
  else
    match env.price_grid item_id with
    | none => Outcome.noUsableGrid item_id
    | some grid =>
      if grid.length < 2 then Outcome.noUsableGrid item_id
      else
        match parseMargin env.parseFloat min_margin with
        | Except.error _ => Outcome.invalidMargin
        | Except.ok mm =>
          Outcome.decision
            (decisionCore (env.qty item_id weekday month is_event)
              (env.sigma weekday month is_event) mm explore grid)

/-- Mock price grid of spec Scenarios A and B: `[2.00, 2.50, 3.00]`. -/
def mockGrid : List ℚ := [2, 5 / 2, 3]

/-- Mock demand function of spec Scenarios A and B: quantities `[10, 8, 5]`
on the grid, so revenues `[20.00, 20.00, 15.00]`. -/
def mockQty : ℚ → ℚ :=
  fun p => if p = 2 then 10 else if p = 5 / 2 then 8 else 5

/-- Mock float parser accepting the literal `2.75` of Scenario B and a
`9.99` literal lying above every mock grid price. -/
def mockParse : String → Option ℚ :=
  fun s => if s = "2.75" then some (11 / 4) else if s = "9.99" then some (999 / 100) else none

/-- Environment realising the spec's mock fixture (Scenarios A-C). -/
def mockEnv : Env :=
  ⟨fun _ => some mockGrid, fun _ _ _ _ => mockQty, fun _ _ _ => 0, mockParse⟩

/-- Environment whose every grid is `[2, 2]`: two entries, one distinct price. -/
def mockEnvEq : Env :=
  ⟨fun _ => some [2, 2], fun _ _ _ _ => fun _ => 1, fun _ _ _ => 0, fun _ => none⟩

/-- Environment whose every grid is the singleton `[2]`. -/
def mockEnvShort : Env :=
  ⟨fun _ => some [2], fun _ _ _ _ => fun _ => 1, fun _ _ _ => 0, fun _ => none⟩

/-! Helper lemmas: `List.getD` through `map`, and the first-occurrence
arg-max semantics. -/

theorem getD_map_lt {α β : Type} (f : α → β) (l : List α) (i : ℕ) (hi : i < l.length)
    (d : α) (e : β) : (l.map f).getD i e = f (l.getD i d) := by
  rw [List.getD_eq_getElem _ _ (by simpa using hi), List.getD_eq_getElem _ _ hi,
    List.getElem_map]

theorem argmax_lt_length : ∀ (l : List ℚ), l ≠ [] → argmax l < l.length
  | [], h => absurd rfl h
  | [_], _ => by simp [argmax]
  | x :: y :: ys, _ => by
    have ih := argmax_lt_length (y :: ys) (by simp)
    by_cases h : x < (y :: ys).getD (argmax (y :: ys)) 0
    · simp only [argmax, if_pos h, List.length_cons]
      simp only [List.length_cons] at ih
      omega
    · simp only [argmax]
      rw [if_neg h]
      simp

theorem getD_le_getD_argmax : ∀ (l : List ℚ) (i : ℕ), i < l.length →
    l.getD i 0 ≤ l.getD (argmax l) 0
  | [], i, hi => by simp at hi
  | [x], i, hi => by
    have : i = 0 := by simpa using hi
    subst this
    simp [argmax]
  | x :: y :: ys, i, hi => by
    by_cases h : x < (y :: ys).getD (argmax (y :: ys)) 0
    · simp only [argmax, if_pos h]
      cases i with
      | zero => simpa [List.getD_cons_zero, List.getD_cons_succ] using le_of_lt h
      | succ k =>
        simp only [List.getD_cons_succ]
        exact getD_le_getD_argmax (y :: ys) k (by simpa using hi)
    · simp only [argmax, if_neg h]
      cases i with
      | zero => simp
      | succ k =>
        simp only [List.getD_cons_succ, List.getD_cons_zero]
        exact le_trans (getD_le_getD_argmax (y :: ys) k (by simpa using hi)) (not_lt.mp h)

theorem getD_lt_of_lt_argmax : ∀ (l : List ℚ) (i : ℕ), i < argmax l →
    l.getD i 0 < l.getD (argmax l) 0
  | [], i, hi => by simp [argmax] at hi
  | [x], i, hi => by simp [argmax] at hi
  | x :: y :: ys, i, hi => by
    by_cases h : x < (y :: ys).getD (argmax (y :: ys)) 0
    · simp only [argmax, if_pos h] at hi ⊢
      cases i with
      | zero => simpa [List.getD_cons_zero, List.getD_cons_succ] using h
      | succ k =>
        simp only [List.getD_cons_succ]
        exact getD_lt_of_lt_argmax (y :: ys) k (by omega)
    · simp only [argmax, if_neg h] at hi
      omega

theorem argmax_map_add : ∀ (l : List ℚ) (c : ℚ),
    argmax (l.map (fun v => v + c)) = argmax l
  | [], _ => rfl
  | [_], _ => rfl
  | x :: y :: ys, c => by
    have ih := argmax_map_add (y :: ys) c
    have hlt := argmax_lt_length (y :: ys) (by simp)
    have hmap : ((y :: ys).map (fun v => v + c)).getD (argmax ((y :: ys).map (fun v => v + c))) 0 =
        (y :: ys).getD (argmax (y :: ys)) 0 + c := by
      rw [ih]
      exact getD_map_lt (fun v => v + c) (y :: ys) (argmax (y :: ys)) hlt 0 0
    simp only [List.map_cons] at ih hmap ⊢
    rw [ih] at hmap
    simp only [argmax, ih, hmap, add_lt_add_iff_right]

theorem argmax_eq_zero_of_all_eq (l : List ℚ) (c : ℚ) (hall : ∀ x ∈ l, x = c) :
    argmax l = 0 := by
  by_contra h
  have hne : l ≠ [] := by
    rintro rfl
    exact h rfl
  have hpos : 0 < argmax l := Nat.pos_of_ne_zero h
  have hlt := getD_lt_of_lt_argmax l 0 hpos
  have hlen0 : 0 < l.length := List.length_pos.mpr hne
  have h0 : l.getD 0 0 = c := by
    rw [List.getD_eq_getElem _ _ hlen0]
    exact hall _ (List.getElem_mem _)
  have ha : l.getD (argmax l) 0 = c := by
    rw [List.getD_eq_getElem _ _ (argmax_lt_length l hne)]
    exact hall _ (List.getElem_mem _)
  rw [h0, ha] at hlt
  exact lt_irrefl _ hlt


/-! Helper lemmas about `candidateFor`, `decisionCore` and `choose_price`. -/

theorem ucb_blocked (q : ℚ → ℚ) (alpha sigma : ℚ) (mm : Option ℚ) (p : ℚ)
    (h : blocked mm p = true) :
    candidateFor q alpha sigma mm p = ⟨p, 0, -1000000000, -1000000000⟩ := by
  simp [candidateFor, h]

theorem ucb_not_blocked (q : ℚ → ℚ) (alpha sigma : ℚ) (mm : Option ℚ) (p : ℚ)
    (h : blocked mm p = false) :
    candidateFor q alpha sigma mm p = ⟨p, q p, p * q p, p * q p + alpha * sigma⟩ := by
  simp [candidateFor, h]

theorem blocked_none (p : ℚ) : blocked none p = false := rfl

theorem blocked_some_iff (m p : ℚ) : blocked (some m) p = true ↔ p < m := by
  simp [blocked]

theorem decisionCore_rows (q : ℚ → ℚ) (sigma : ℚ) (mm : Option ℚ) (explore : Bool)
    (grid : List ℚ) :
    (decisionCore q sigma mm explore grid).rows =
      grid.map (candidateFor q (if explore then 4 / 5 else 0) sigma mm) := rfl

theorem decisionCore_scores (q : ℚ → ℚ) (sigma : ℚ) (mm : Option ℚ) (explore : Bool)
    (grid : List ℚ) :
    (decisionCore q sigma mm explore grid).scores =
      grid.map (fun p => (candidateFor q (if explore then 4 / 5 else 0) sigma mm p).ucb) := by
  show (grid.map (candidateFor q (if explore then 4 / 5 else 0) sigma mm)).map
      (fun r => r.ucb) = _
  rw [List.map_map]
  rfl

theorem decisionCore_chosen_index (q : ℚ → ℚ) (sigma : ℚ) (mm : Option ℚ) (explore : Bool)
    (grid : List ℚ) :
    (decisionCore q sigma mm explore grid).chosen_index =
      argmax (decisionCore q sigma mm explore grid).scores := rfl

theorem decisionCore_chosen_price (q : ℚ → ℚ) (sigma : ℚ) (mm : Option ℚ) (explore : Bool)
    (grid : List ℚ) :
    (decisionCore q sigma mm explore grid).chosen_price =
      grid.getD (decisionCore q sigma mm explore grid).chosen_index 0 := rfl

theorem decisionCore_guardrail (q : ℚ → ℚ) (sigma : ℚ) (mm : Option ℚ) (explore : Bool)
    (grid : List ℚ) :
    (decisionCore q sigma mm explore grid).guardrail_applied =
      grid.any (fun p => blocked mm p) := rfl

theorem choose_price_main (env : Env) (item_id weekday : String) (month is_event : ℤ)
    (min_margin : Option String) (explore : Bool) (grid : List ℚ) (mm : Option ℚ)
    (hitem : item_id ≠ "") (hgrid : env.price_grid item_id = some grid)
    (hlen : 2 ≤ grid.length)
    (hmm : parseMargin env.parseFloat min_margin = Except.ok mm) :
    choose_price env item_id weekday month is_event min_margin explore =
      Outcome.decision (decisionCore (env.qty item_id weekday month is_event)
        (env.sigma weekday month is_event) mm explore grid) := by
  have h2 : ¬ grid.length < 2 := by omega
  simp [choose_price, hitem, hgrid, h2, hmm]

theorem chosen_index_no_guardrail (q : ℚ → ℚ) (sigma : ℚ) (explore : Bool) (grid : List ℚ) :
    (decisionCore q sigma none explore grid).chosen_index =
      argmax (grid.map (fun p => p * q p)) := by
  rw [decisionCore_chosen_index, decisionCore_scores]
  have hfun : (fun p => (candidateFor q (if explore then 4 / 5 else 0) sigma none p).ucb) =
      (fun v => v + (if explore then 4 / 5 else 0) * sigma) ∘ (fun p => p * q p) := by
    funext p
    simp [candidateFor, blocked]
  rw [hfun, ← List.map_map, argmax_map_add]

theorem mockQty_nonneg (p : ℚ) : 0 ≤ mockQty p := by
  unfold mockQty
  split
  · norm_num
  · split
    · norm_num
    · norm_num


/-- C1: for every request in which all preconditions pass, every grid price
is positive, and at least one candidate is not blocked by the guardrail, the
candidate selected by `choose_price` (at `chosen_index`) is a non-blocked
candidate: a blocked candidate never wins the arg-max unless all candidates
are blocked.  The hypotheses `hq` and `hs` record facts the source guarantees
for its opaque collaborators: `expected_qty` is floored at zero (src/app.py
line 57) and `sigma` is a square root (line 82). -/
theorem claim1_chosen_not_blocked (env : Env) (item_id weekday : String)
    (month is_event : ℤ) (min_margin : Option String) (explore : Bool)
    (grid : List ℚ) (mm : Option ℚ)
    (hitem : item_id ≠ "") (hgrid : env.price_grid item_id = some grid)
    (hlen : 2 ≤ grid.length)
    (hmm : parseMargin env.parseFloat min_margin = Except.ok mm)
    (hq : ∀ p, 0 ≤ env.qty item_id weekday month is_event p)
    (hs : 0 ≤ env.sigma weekday month is_event)
    (hpos : ∀ p ∈ grid, 0 < p)
    (hopen : ∃ p ∈ grid, blocked mm p = false) :
    ∃ d, choose_price env item_id weekday month is_event min_margin explore =
        Outcome.decision d ∧
      d.chosen_index < grid.length ∧
      d.chosen_price = grid.getD d.chosen_index 0 ∧
      blocked mm (grid.getD d.chosen_index 0) = false := by
  set q := env.qty item_id weekday month is_event with hqdef
  set sg := env.sigma weekday month is_event with hsgdef
  set a : ℚ := if explore then 4 / 5 else 0 with hadef
  have ha : 0 ≤ a := by
    rw [hadef]
    split
    · norm_num
    · norm_num
  set sfun := fun p => (candidateFor q a sg mm p).ucb with hsfdef
  have hKdef : (decisionCore q sg mm explore grid).chosen_index =
      argmax (grid.map sfun) := by
    rw [decisionCore_chosen_index, decisionCore_scores]
  have hlens : (grid.map sfun).length = grid.length := List.length_map grid sfun
  have hne : grid.map sfun ≠ [] := by
    have : 0 < (grid.map sfun).length := by omega
    exact List.ne_nil_of_length_pos this
  have hKlt : argmax (grid.map sfun) < grid.length := by
    have := argmax_lt_length (grid.map sfun) hne
    omega
  refine ⟨decisionCore q sg mm explore grid,
    choose_price_main env item_id weekday month is_event min_margin explore grid mm
      hitem hgrid hlen hmm, ?_, decisionCore_chosen_price q sg mm explore grid, ?_⟩
  · rw [hKdef]
    exact hKlt
  · rw [hKdef]
    obtain ⟨p0, hp0m, hp0b⟩ := hopen
    obtain ⟨i0, hi0, hp0⟩ := List.mem_iff_getElem.mp hp0m
    have hgd0 : grid.getD i0 0 = p0 := by
      rw [List.getD_eq_getElem _ _ hi0]
      exact hp0
    have hs0 : (grid.map sfun).getD i0 0 = sfun p0 := by
      rw [getD_map_lt sfun grid i0 hi0 0 0, hgd0]
    have hsp0 : sfun p0 = p0 * q p0 + a * sg := by
      rw [hsfdef]
      simp only [ucb_not_blocked q a sg mm p0 hp0b]
    have hnn : 0 ≤ sfun p0 := by
      rw [hsp0]
      have h1 : 0 ≤ p0 * q p0 := mul_nonneg (le_of_lt (hpos p0 hp0m)) (hq p0)
      have h2 : 0 ≤ a * sg := mul_nonneg ha hs
      linarith
    have hle : (grid.map sfun).getD i0 0 ≤
        (grid.map sfun).getD (argmax (grid.map sfun)) 0 := by
      refine getD_le_getD_argmax (grid.map sfun) i0 ?_
      omega
    have hsK : (grid.map sfun).getD (argmax (grid.map sfun)) 0 =
        sfun (grid.getD (argmax (grid.map sfun)) 0) :=
      getD_map_lt sfun grid (argmax (grid.map sfun)) hKlt 0 0
    cases hb : blocked mm (grid.getD (argmax (grid.map sfun)) 0) with
    | false => rfl
    | true =>
      exfalso
      have hsent : sfun (grid.getD (argmax (grid.map sfun)) 0) = -1000000000 := by
        rw [hsfdef]
        simp only [ucb_blocked q a sg mm _ hb]
      rw [hs0, hsK, hsent] at hle
      linarith


/-- Witness for C1: Scenario A of the spec, with no guardrail set. -/
theorem claim1_chosen_not_blocked_witness :
    ∃ d, choose_price mockEnv "FOODS_1_001" "Friday" 11 0 none false =
        Outcome.decision d ∧
      d.chosen_index < mockGrid.length ∧
      d.chosen_price = mockGrid.getD d.chosen_index 0 ∧
      blocked none (mockGrid.getD d.chosen_index 0) = false :=
  claim1_chosen_not_blocked mockEnv "FOODS_1_001" "Friday" 11 0 none false mockGrid none
    (by decide) rfl (by norm_num [mockGrid]) rfl
    (fun p => mockQty_nonneg p) (le_refl 0)
    (by norm_num [mockGrid]) ⟨2, by norm_num [mockGrid], rfl⟩

/-- C2: for every request with no guardrail in which all preconditions pass,
the chosen index and chosen price returned by `choose_price` are identical
whether the explore flag is true or false: in exact arithmetic the additive
term `alpha * sigma` is the same for every candidate, so it does not change
the arg-max or its first-occurrence tie-break. -/
theorem claim2_explore_invariant (env : Env) (item_id weekday : String)
    (month is_event : ℤ) (min_margin : Option String) (grid : List ℚ)
    (hitem : item_id ≠ "") (hgrid : env.price_grid item_id = some grid)
    (hlen : 2 ≤ grid.length)
    (hmm : parseMargin env.parseFloat min_margin = Except.ok none) :
    ∃ dt df,
      choose_price env item_id weekday month is_event min_margin true =
        Outcome.decision dt ∧
      choose_price env item_id weekday month is_event min_margin false =
        Outcome.decision df ∧
      dt.chosen_index = df.chosen_index ∧
      dt.chosen_price = df.chosen_price := by
  refine ⟨_, _,
    choose_price_main env item_id weekday month is_event min_margin true grid none
      hitem hgrid hlen hmm,
    choose_price_main env item_id weekday month is_event min_margin false grid none
      hitem hgrid hlen hmm, ?_, ?_⟩
  · rw [chosen_index_no_guardrail, chosen_index_no_guardrail]
  · rw [decisionCore_chosen_price, decisionCore_chosen_price,
      chosen_index_no_guardrail, chosen_index_no_guardrail]

/-- Witness for C2: the mock fixture of Scenario A with both explore values. -/
theorem claim2_explore_invariant_witness :
    ∃ dt df,
      choose_price mockEnv "FOODS_1_001" "Friday" 11 0 none true =
        Outcome.decision dt ∧
      choose_price mockEnv "FOODS_1_001" "Friday" 11 0 none false =
        Outcome.decision df ∧
      dt.chosen_index = df.chosen_index ∧
      dt.chosen_price = df.chosen_price :=
  claim2_explore_invariant mockEnv "FOODS_1_001" "Friday" 11 0 none mockGrid
    (by decide) rfl (by norm_num [mockGrid]) rfl


/-- C3: for every request in which all preconditions pass and the guardrail
is strictly greater than every grid price, `choose_price` returns a normal
decision without raising: every candidate is blocked with the sentinel
values, `guardrail_applied` is true, and the chosen candidate is the first
grid entry (index 0), the first blocked candidate in grid order. -/
theorem claim3_full_block (env : Env) (item_id weekday : String)
    (month is_event : ℤ) (min_margin : Option String) (explore : Bool)
    (grid : List ℚ) (m : ℚ)
    (hitem : item_id ≠ "") (hgrid : env.price_grid item_id = some grid)
    (hlen : 2 ≤ grid.length)
    (hmm : parseMargin env.parseFloat min_margin = Except.ok (some m))
    (hall : ∀ p ∈ grid, p < m) :
    ∃ d, choose_price env item_id weekday month is_event min_margin explore =
        Outcome.decision d ∧
      d.guardrail_applied = true ∧
      d.chosen_index = 0 ∧
      d.chosen_price = grid.getD 0 0 ∧
      ∀ r ∈ d.rows, r.exp_qty = 0 ∧ r.exp_rev = -1000000000 ∧ r.ucb = -1000000000 := by
  set q := env.qty item_id weekday month is_event
  set sg := env.sigma weekday month is_event
  have hblocked : ∀ p ∈ grid, blocked (some m) p = true := fun p hp =>
    (blocked_some_iff m p).mpr (hall p hp)
  have hidx : (decisionCore q sg (some m) explore grid).chosen_index = 0 := by
    rw [decisionCore_chosen_index, decisionCore_scores]
    refine argmax_eq_zero_of_all_eq _ (-1000000000) ?_
    intro x hx
    obtain ⟨p, hp, hfx⟩ := List.mem_map.mp hx
    rw [← hfx, ucb_blocked q _ sg (some m) p (hblocked p hp)]
  refine ⟨decisionCore q sg (some m) explore grid,
    choose_price_main env item_id weekday month is_event min_margin explore grid (some m)
      hitem hgrid hlen hmm, ?_, hidx, ?_, ?_⟩
  · rw [decisionCore_guardrail]
    have hne : grid ≠ [] := by
      intro h
      rw [h] at hlen
      simp at hlen
    obtain ⟨p0, hp0⟩ := List.exists_mem_of_ne_nil grid hne
    exact List.any_eq_true.mpr ⟨p0, hp0, hblocked p0 hp0⟩
  · rw [decisionCore_chosen_price, hidx]
  · intro r hr
    rw [decisionCore_rows] at hr
    obtain ⟨p, hp, hfp⟩ := List.mem_map.mp hr
    rw [← hfp, ucb_blocked q _ sg (some m) p (hblocked p hp)]
    exact ⟨rfl, rfl, rfl⟩

/-- Witness for C3: the mock fixture with guardrail `9.99` above every grid
price. -/
theorem claim3_full_block_witness :
    ∃ d, choose_price mockEnv "FOODS_1_001" "Friday" 11 0 (some "9.99") false =
        Outcome.decision d ∧
      d.guardrail_applied = true ∧
      d.chosen_index = 0 ∧
      d.chosen_price = mockGrid.getD 0 0 ∧
      ∀ r ∈ d.rows, r.exp_qty = 0 ∧ r.exp_rev = -1000000000 ∧ r.ucb = -1000000000 :=
  claim3_full_block mockEnv "FOODS_1_001" "Friday" 11 0 (some "9.99") false mockGrid
    (999 / 100) (by decide) rfl (by norm_num [mockGrid])
    (by norm_num [parseMargin, mockEnv, mockParse, (by decide : pyStrip "9.99" = "9.99"),
      (by decide : ¬("9.99" = "")), (by decide : ¬("9.99" = "2.75"))])
    (by norm_num [mockGrid])

/-- Counterexample to C4: the grid `[2, 2]` has a single distinct price, yet
`choose_price` does not reject the request — the source only checks
`len(grid) < 2` (src/app.py line 67), not distinctness, so it produces a
full decision. -/
theorem claim4_counterexample :
    ([(2 : ℚ), 2]).dedup.length = 1 ∧
    mockEnvEq.price_grid "ITEM" = some [2, 2] ∧
    choose_price mockEnvEq "ITEM" "Friday" 11 0 none false =
      Outcome.decision ⟨[⟨2, 1, 2, 2⟩, ⟨2, 1, 2, 2⟩], [2, 2], 0, 2, false⟩ := by
  refine ⟨by decide, rfl, ?_⟩
  norm_num [choose_price, decisionCore, candidateFor, blocked, argmax, parseMargin,
    mockEnvEq, (by decide : ¬("ITEM" = ""))]

/-- C4 as amended: `choose_price` rejects a request with the no-usable-grid
outcome exactly when the grid has fewer than 2 entries; distinctness of the
prices is not checked. -/
theorem claim4_amended (env : Env) (item_id weekday : String) (month is_event : ℤ)
    (min_margin : Option String) (explore : Bool) (grid : List ℚ)
    (hitem : item_id ≠ "") (hgrid : env.price_grid item_id = some grid)
    (hlen : grid.length < 2) :
    choose_price env item_id weekday month is_event min_margin explore =
      Outcome.noUsableGrid item_id := by
  simp [choose_price, hitem, hgrid, hlen]

/-- Witness for the amended C4: a singleton grid is rejected. -/
theorem claim4_amended_witness :
    choose_price mockEnvShort "X" "Friday" 11 0 none false = Outcome.noUsableGrid "X" :=
  claim4_amended mockEnvShort "X" "Friday" 11 0 none false [2] (by decide) rfl
    (by norm_num)

/-- C5: for every request naming an item whose grid is missing or has fewer
than 2 entries, `choose_price` returns the no-usable-grid outcome; the result
is the same for every environment sharing the same grid store, whatever its
demand predictor, dispersion and parser — the predictor is never consulted. -/
theorem claim5_no_usable_grid (env envAlt : Env) (item_id weekday : String)
    (month is_event : ℤ) (min_margin : Option String) (explore : Bool)
    (hsame : envAlt.price_grid = env.price_grid)
    (hitem : item_id ≠ "")
    (hbad : env.price_grid item_id = none ∨
      ∃ grid, env.price_grid item_id = some grid ∧ grid.length < 2) :
    choose_price envAlt item_id weekday month is_event min_margin explore =
      Outcome.noUsableGrid item_id := by
  rcases hbad with h | ⟨grid, h, hlenlt⟩
  · simp [choose_price, hitem, hsame, h]
  · simp [choose_price, hitem, hsame, h, hlenlt]

/-- Witness for C5: the singleton-grid store rejects the request. -/
theorem claim5_no_usable_grid_witness :
    choose_price mockEnvShort "I" "Friday" 11 0 none false = Outcome.noUsableGrid "I" :=
  claim5_no_usable_grid mockEnvShort mockEnvShort "I" "Friday" 11 0 none false rfl
    (by decide) (Or.inr ⟨[2], rfl, by norm_num⟩)

/-- C6: for every request whose min-margin value is present (non-empty after
stripping) but not parseable, `choose_price` returns the validation failure
for every environment sharing the same grid store and parser — no candidate
is scored and the predictor is never consulted — and that outcome is distinct
from every no-usable-grid outcome. -/
theorem claim6_invalid_margin (env envAlt : Env) (item_id weekday : String)
    (month is_event : ℤ) (explore : Bool) (grid : List ℚ) (s : String)
    (hgridsame : envAlt.price_grid = env.price_grid)
    (hparsesame : envAlt.parseFloat = env.parseFloat)
    (hitem : item_id ≠ "")
    (hgrid : env.price_grid item_id = some grid) (hlen : 2 ≤ grid.length)
    (hne : pyStrip s ≠ "") (hparse : env.parseFloat (pyStrip s) = none) :
    choose_price envAlt item_id weekday month is_event (some s) explore =
        Outcome.invalidMargin ∧
      ∀ t, Outcome.invalidMargin ≠ Outcome.noUsableGrid t := by
  constructor
  · have h2 : ¬ grid.length < 2 := by omega
    have hpm : parseMargin env.parseFloat (some s) = Except.error () := by
      simp [parseMargin, hne, hparse]
    simp [choose_price, hitem, hgridsame, hgrid, h2, hparsesame, hpm]
  · intro t h
    exact Outcome.noConfusion h

/-- Witness for C6: Scenario C, `min_margin = "abc"`. -/
theorem claim6_invalid_margin_witness :
    choose_price mockEnv "FOODS_1_001" "Friday" 11 0 (some "abc") false =
        Outcome.invalidMargin ∧
      ∀ t, Outcome.invalidMargin ≠ Outcome.noUsableGrid t :=
  claim6_invalid_margin mockEnv mockEnv "FOODS_1_001" "Friday" 11 0 false mockGrid "abc"
    rfl rfl (by decide) rfl (by norm_num [mockGrid]) (by decide) (by decide)


theorem blocked_eq_true_iff (mm : Option ℚ) (p : ℚ) :
    blocked mm p = true ↔ ∃ m, mm = some m ∧ p < m := by
  cases mm with
  | none => simp [blocked]
  | some m => simp [blocked]

/-- C7: a candidate is blocked iff a guardrail is set and its price is
strictly below it (a price equal to the guardrail stays eligible), a blocked
candidate records qty 0 and the sentinel revenue and score, a non-blocked one
records the predicted quantity, revenue and score; and in Scenario B (grid
`[2.00, 2.50, 3.00]`, `min_margin = "2.75"`) the candidates at 2.00 and 2.50
are blocked and the chosen price is 3.00. -/
theorem claim7_blocked_iff :
    (∀ (env : Env) (item_id weekday : String) (month is_event : ℤ)
        (min_margin : Option String) (explore : Bool) (grid : List ℚ) (mm : Option ℚ),
      item_id ≠ "" → env.price_grid item_id = some grid → 2 ≤ grid.length →
      parseMargin env.parseFloat min_margin = Except.ok mm →
      ∃ d, choose_price env item_id weekday month is_event min_margin explore =
          Outcome.decision d ∧
        d.rows.length = grid.length ∧
        ∀ i, i < grid.length →
          (blocked mm (grid.getD i 0) = true ↔
            ∃ m, mm = some m ∧ grid.getD i 0 < m) ∧
          (blocked mm (grid.getD i 0) = true →
            d.rows.getD i ⟨0, 0, 0, 0⟩ =
              ⟨grid.getD i 0, 0, -1000000000, -1000000000⟩) ∧
          (blocked mm (grid.getD i 0) = false →
            d.rows.getD i ⟨0, 0, 0, 0⟩ =
              ⟨grid.getD i 0,
                env.qty item_id weekday month is_event (grid.getD i 0),
                grid.getD i 0 * env.qty item_id weekday month is_event (grid.getD i 0),
                grid.getD i 0 * env.qty item_id weekday month is_event (grid.getD i 0) +
                  (if explore then 4 / 5 else 0) * env.sigma weekday month is_event⟩)) ∧
    (∃ d, choose_price mockEnv "FOODS_1_001" "Friday" 11 0 (some "2.75") false =
        Outcome.decision d ∧
      blocked (some (11 / 4)) 2 = true ∧ blocked (some (11 / 4)) (5 / 2) = true ∧
      blocked (some (11 / 4)) 3 = false ∧ d.chosen_price = 3) := by
  constructor
  · intro env item_id weekday month is_event min_margin explore grid mm
      hitem hgrid hlen hmm
    refine ⟨decisionCore (env.qty item_id weekday month is_event)
        (env.sigma weekday month is_event) mm explore grid,
      choose_price_main env item_id weekday month is_event min_margin explore grid mm
        hitem hgrid hlen hmm, ?_, ?_⟩
    · rw [decisionCore_rows]
      exact List.length_map grid _
    · intro i hi
      have hrow : (decisionCore (env.qty item_id weekday month is_event)
          (env.sigma weekday month is_event) mm explore grid).rows.getD i ⟨0, 0, 0, 0⟩ =
          candidateFor (env.qty item_id weekday month is_event)
            (if explore then 4 / 5 else 0) (env.sigma weekday month is_event) mm
            (grid.getD i 0) := by
        rw [decisionCore_rows]
        exact getD_map_lt _ grid i hi 0 (⟨0, 0, 0, 0⟩ : Candidate)
      refine ⟨blocked_eq_true_iff mm (grid.getD i 0), ?_, ?_⟩
      · intro hb
        rw [hrow, ucb_blocked _ _ _ _ _ hb]
      · intro hb
        rw [hrow, ucb_not_blocked _ _ _ _ _ hb]
  · refine ⟨⟨[⟨2, 0, -1000000000, -1000000000⟩, ⟨5 / 2, 0, -1000000000, -1000000000⟩,
      ⟨3, 5, 15, 15⟩], [-1000000000, -1000000000, 15], 2, 3, true⟩, ?_, ?_, ?_, ?_, rfl⟩
    · norm_num [choose_price, decisionCore, candidateFor, blocked, argmax, parseMargin,
        mockEnv, mockGrid, mockQty, mockParse, (by decide : pyStrip "2.75" = "2.75"),
        (by decide : ¬("2.75" = "")), (by decide : ¬("FOODS_1_001" = ""))]
    · norm_num [blocked]
    · norm_num [blocked]
    · norm_num [blocked]

/-- Witness for C7: the general part instantiated at Scenario B. -/
theorem claim7_blocked_iff_witness :
    ∃ d, choose_price mockEnv "FOODS_1_001" "Friday" 11 0 (some "2.75") false =
        Outcome.decision d ∧
      d.rows.length = mockGrid.length ∧
      ∀ i, i < mockGrid.length →
        (blocked (some (11 / 4)) (mockGrid.getD i 0) = true ↔
          ∃ m, some (11 / 4) = some m ∧ mockGrid.getD i 0 < m) ∧
        (blocked (some (11 / 4)) (mockGrid.getD i 0) = true →
          d.rows.getD i ⟨0, 0, 0, 0⟩ =
            ⟨mockGrid.getD i 0, 0, -1000000000, -1000000000⟩) ∧
        (blocked (some (11 / 4)) (mockGrid.getD i 0) = false →
          d.rows.getD i ⟨0, 0, 0, 0⟩ =
            ⟨mockGrid.getD i 0,
              mockEnv.qty "FOODS_1_001" "Friday" 11 0 (mockGrid.getD i 0),
              mockGrid.getD i 0 * mockEnv.qty "FOODS_1_001" "Friday" 11 0 (mockGrid.getD i 0),
              mockGrid.getD i 0 * mockEnv.qty "FOODS_1_001" "Friday" 11 0 (mockGrid.getD i 0) +
                (if false then 4 / 5 else 0) * mockEnv.sigma "Friday" 11 0⟩) :=
  claim7_blocked_iff.1 mockEnv "FOODS_1_001" "Friday" 11 0 (some "2.75") false mockGrid
    (some (11 / 4)) (by decide) rfl (by norm_num [mockGrid])
    (by norm_num [parseMargin, mockEnv, mockParse, (by decide : pyStrip "2.75" = "2.75"),
      (by decide : ¬("2.75" = ""))])

/-- C8: `expected_qty` returns exactly `max 0 (exp mu - 1)` where `mu` is the
opaque model's prediction on the feature row (log-price, weekday, month,
event flag, item), so its result is nonnegative whatever real value `mu`
takes. -/
theorem claim8_expected_qty_nonneg (model_pipe : FeatureRow → ℝ)
    (item_id weekday : String) (month is_event : ℤ) (trial_price : ℝ)
    (_hp : 0 < trial_price) :
    expected_qty model_pipe item_id weekday month is_event trial_price =
      max 0 (Real.exp
        (model_pipe ⟨Real.log trial_price, weekday, month, is_event, item_id⟩) - 1) ∧
    0 ≤ expected_qty model_pipe item_id weekday month is_event trial_price :=
  ⟨rfl, le_max_left 0 _⟩

/-- Witness for C8: the zero model at price 1. -/
theorem claim8_expected_qty_nonneg_witness :
    (0 : ℝ) < 1 ∧
    (expected_qty (fun _ : FeatureRow => 0) "FOODS_1_001" "Friday" 11 0 1 =
      max 0 (Real.exp
        ((fun _ : FeatureRow => (0 : ℝ))
          ⟨Real.log 1, "Friday", 11, 0, "FOODS_1_001"⟩) - 1) ∧
    0 ≤ expected_qty (fun _ : FeatureRow => 0) "FOODS_1_001" "Friday" 11 0 1) :=
  ⟨by norm_num,
    claim8_expected_qty_nonneg (fun _ : FeatureRow => 0) "FOODS_1_001" "Friday" 11 0 1
      (by norm_num)⟩


/-- C9: when all preconditions pass, `chosen_index` is the smallest index in
original grid order whose score attains the maximum over all candidates,
blocked or not — on exact score equality the earliest candidate wins — and in
Scenario A (revenues `[20.00, 20.00, 15.00]`, no exploration, no guardrail)
the tie-break picks index 0, price 2.00. -/
theorem claim9_first_occurrence_argmax :
    (∀ (env : Env) (item_id weekday : String) (month is_event : ℤ)
        (min_margin : Option String) (explore : Bool) (grid : List ℚ) (mm : Option ℚ),
      item_id ≠ "" → env.price_grid item_id = some grid → 2 ≤ grid.length →
      parseMargin env.parseFloat min_margin = Except.ok mm →
      ∃ d, choose_price env item_id weekday month is_event min_margin explore =
          Outcome.decision d ∧
        d.chosen_index < d.scores.length ∧
        (∀ i, i < d.scores.length →
          d.scores.getD i 0 ≤ d.scores.getD d.chosen_index 0) ∧
        (∀ i, i < d.chosen_index →
          d.scores.getD i 0 < d.scores.getD d.chosen_index 0)) ∧
    (∃ d, choose_price mockEnv "FOODS_1_001" "Friday" 11 0 none false =
        Outcome.decision d ∧
      d.scores = [20, 20, 15] ∧ d.chosen_index = 0 ∧ d.chosen_price = 2) := by
  constructor
  · intro env item_id weekday month is_event min_margin explore grid mm
      hitem hgrid hlen hmm
    refine ⟨decisionCore (env.qty item_id weekday month is_event)
        (env.sigma weekday month is_event) mm explore grid,
      choose_price_main env item_id weekday month is_event min_margin explore grid mm
        hitem hgrid hlen hmm, ?_, ?_, ?_⟩
    · rw [decisionCore_chosen_index]
      refine argmax_lt_length _ ?_
      rw [decisionCore_scores]
      have : (grid.map (fun p => (candidateFor (env.qty item_id weekday month is_event)
          (if explore then 4 / 5 else 0) (env.sigma weekday month is_event) mm p).ucb)).length =
          grid.length := List.length_map grid _
      intro hnil
      rw [hnil] at this
      simp at this
      omega
    · intro i hi
      rw [decisionCore_chosen_index]
      exact getD_le_getD_argmax _ i hi
    · intro i hi
      rw [decisionCore_chosen_index]
      rw [decisionCore_chosen_index] at hi
      exact getD_lt_of_lt_argmax _ i hi
  · refine ⟨⟨[⟨2, 10, 20, 20⟩, ⟨5 / 2, 8, 20, 20⟩, ⟨3, 5, 15, 15⟩],
      [20, 20, 15], 0, 2, false⟩, ?_, rfl, rfl, rfl⟩
    norm_num [choose_price, decisionCore, candidateFor, blocked, argmax, parseMargin,
      mockEnv, mockGrid, mockQty, mockParse, (by decide : ¬("FOODS_1_001" = ""))]

/-- Witness for C9: the general part instantiated at Scenario A. -/
theorem claim9_first_occurrence_argmax_witness :
    ∃ d, choose_price mockEnv "FOODS_1_001" "Friday" 11 0 none false =
        Outcome.decision d ∧
      d.chosen_index < d.scores.length ∧
      (∀ i, i < d.scores.length →
        d.scores.getD i 0 ≤ d.scores.getD d.chosen_index 0) ∧
      (∀ i, i < d.chosen_index →
        d.scores.getD i 0 < d.scores.getD d.chosen_index 0) :=
  claim9_first_occurrence_argmax.1 mockEnv "FOODS_1_001" "Friday" 11 0 none false
    mockGrid none (by decide) rfl (by norm_num [mockGrid]) rfl

/-- C10: when all preconditions pass the result is well-indexed: one
candidate row and one score per grid price, in grid order, with
`chosen_index` in bounds and the chosen price equal to the grid entry at
`chosen_index`. -/
theorem claim10_well_indexed (env : Env) (item_id weekday : String)
    (month is_event : ℤ) (min_margin : Option String) (explore : Bool)
    (grid : List ℚ) (mm : Option ℚ)
    (hitem : item_id ≠ "") (hgrid : env.price_grid item_id = some grid)
    (hlen : 2 ≤ grid.length)
    (hmm : parseMargin env.parseFloat min_margin = Except.ok mm) :
    ∃ d, choose_price env item_id weekday month is_event min_margin explore =
        Outcome.decision d ∧
      d.rows.length = grid.length ∧
      d.scores.length = grid.length ∧
      d.chosen_index < grid.length ∧
      d.chosen_price = grid.getD d.chosen_index 0 := by
  have hsl : (decisionCore (env.qty item_id weekday month is_event)
      (env.sigma weekday month is_event) mm explore grid).scores.length = grid.length := by
    rw [decisionCore_scores]
    exact List.length_map grid _
  refine ⟨decisionCore (env.qty item_id weekday month is_event)
      (env.sigma weekday month is_event) mm explore grid,
    choose_price_main env item_id weekday month is_event min_margin explore grid mm
      hitem hgrid hlen hmm, ?_, hsl, ?_,
    decisionCore_chosen_price (env.qty item_id weekday month is_event)
      (env.sigma weekday month is_event) mm explore grid⟩
  · rw [decisionCore_rows]
    exact List.length_map grid _
  · rw [decisionCore_chosen_index]
    have hne : (decisionCore (env.qty item_id weekday month is_event)
        (env.sigma weekday month is_event) mm explore grid).scores ≠ [] := by
      intro hnil
      rw [hnil] at hsl
      simp at hsl
      omega
    have := argmax_lt_length _ hne
    omega

/-- Witness for C10: Scenario A. -/
theorem claim10_well_indexed_witness :
    ∃ d, choose_price mockEnv "FOODS_1_001" "Friday" 11 0 none false =
        Outcome.decision d ∧
      d.rows.length = mockGrid.length ∧
      d.scores.length = mockGrid.length ∧
      d.chosen_index < mockGrid.length ∧
      d.chosen_price = mockGrid.getD d.chosen_index 0 :=
  claim10_well_indexed mockEnv "FOODS_1_001" "Friday" 11 0 none false mockGrid none
    (by decide) rfl (by norm_num [mockGrid]) rfl

end PriceWise







